import Mathlib

/-
  Verification development for the unsplash-smart-mcp-server repository.

  Shallow embedding of the two core components described by the spec:
  * the Unsplash API client (src/unsplashClient.ts): generic `request` retry
    loop, `downloadPhoto`;
  * the attribution ledger (attributionManager): `addAttribution`,
    `getAttribution`, `getAllAttributions`, `getAttributionsForProject`,
    `loadDatabase` / `saveDatabase` persistence;
  together with the zod response schemas (unsplashTypes.ts).

  Since the TypeScript runs on untyped JavaScript values, the persisted
  database is modelled at two levels: a typed `AttributionDatabase` for
  normal operation, and a raw `Json` level for the load path, which in the
  source adopts whatever `JSON.parse` returned without validation.
-/

namespace UnsplashMCP

/- ===== JSON values (results of JSON.parse / inputs of JSON.stringify) ===== -/

/-- A parsed JSON value. JSON numbers are modelled as integers: every number
the modelled code produces or inspects is an integer (zod `z.number().int()`
is the only numeric check), so fractional numbers are outside this model. -/
inductive Json where
  | jnull
  | jbool (b : Bool)
  | jnum (n : Int)
  | jstr (s : String)
  | jarr (elems : List Json)
  | jobj (fields : List (String × Json))

/-- JS object property read (`obj[key]`); `none` models `undefined`.
JS objects cannot hold duplicate keys; on lists with duplicates the first
occurrence wins, matching how `objSet` maintains them. -/
def objGet {α : Type} (fields : List (String × α)) (key : String) : Option α :=
  match fields with
  | [] => none
  | (k, v) :: rest => if k = key then some v else objGet rest key

/-- JS object property write (`obj[key] = v`): replaces the value in place
when the key exists (insertion order preserved), appends otherwise. -/
def objSet {α : Type} (fields : List (String × α)) (key : String) (v : α) :
    List (String × α) :=
  match fields with
  | [] => [(key, v)]
  | (k, w) :: rest =>
    if k = key then (k, v) :: rest else (k, w) :: objSet rest key v

/-- JS truthiness of a JSON value: `null`, `false`, `0` and `""` are falsy;
every object and array is truthy. -/
def jsTruthy : Json → Bool
  | .jnull => false
  | .jbool b => b
  | .jnum n => n != 0
  | .jstr s => s != ""
  | .jarr _ => true
  | .jobj _ => true

/-- JS `v || fallback` on a nullable/optional string: `null`/`undefined`
(modelled as `none`) and the empty string are falsy, so both fall back. -/
def jsOrString (v : Option String) (fallback : String) : String :=
  match v with
  | some s => if s = "" then fallback else s
  | none => fallback

/-- JS `s.startsWith(search)`: search is a textual prefix of s. (Defined on
the character lists so that concrete instances evaluate in the kernel.) -/
def jsStartsWith (s search : String) : Bool :=
  search.data.isPrefixOf s.data

/- ===== Typed data model (zod schemas in unsplashTypes.ts) ===== -/

/-- UserSchema: `name` is `z.string().nullable()`; the profile fields are
`.nullable().optional()` — absent and `null` are both modelled as `none`. -/
structure User where
  id : String
  username : String
  name : Option String
  portfolio_url : Option String
  bio : Option String
  location : Option String
  instagram_username : Option String
  twitter_username : Option String
deriving DecidableEq

/-- UrlsSchema: the five named URL variants. -/
structure Urls where
  raw : String
  full : String
  regular : String
  small : String
  thumb : String
deriving DecidableEq

/-- LinksSchema: the four named hyperlink references. -/
structure Links where
  self : String
  html : String
  download : String
  download_location : String
deriving DecidableEq

/-- PhotoSchema. `created_at`/`updated_at` are optional, `color`/`blur_hash`
optional-nullable, `description`/`alt_description` nullable; all modelled as
`Option String`. -/
structure Photo where
  id : String
  created_at : Option String
  updated_at : Option String
  width : Int
  height : Int
  color : Option String
  blur_hash : Option String
  description : Option String
  alt_description : Option String
  urls : Urls
  links : Links
  user : User
deriving DecidableEq

/- ===== Attribution ledger: typed model (attributionManager) ===== -/

/-- The Attribution interface. Optional fields (`photographerUrl?`,
`projectPath?`, `projectFile?`) are `Option String`. -/
structure Attribution where
  id : String
  photographer : String
  photographerUrl : Option String
  source : String
  sourceUrl : String
  license : String
  downloadDate : String
  projectPath : Option String
  projectFile : Option String
deriving DecidableEq

/-- The AttributionDatabase interface: `attributions` is a JS object keyed by
photo id, modelled as an association list in property insertion order.
(JS reorders integer-like keys first when enumerating; the theorems below
about enumeration are therefore stated order-insensitively.) -/
structure AttributionDatabase where
  attributions : List (String × Attribution)
  version : String
deriving DecidableEq

/-- The empty database that `loadDatabase` returns when the file is absent
or unparsable. -/
def emptyDatabase : AttributionDatabase :=
  { attributions := [], version := "1.0.0" }

/-- Node `path.dirname` for slash-separated paths without trailing slashes:
`"/a/b" ↦ "/a"`, `"/a" ↦ "/"`, `"a" ↦ "."`. (Node first strips trailing
slashes; inputs with trailing slashes are not normalized here and never
appear in the theorems below.) -/
def dirname (p : String) : String :=
  let parts := p.splitOn "/"
  if parts.length ≤ 1 then "."
  else
    let d := String.intercalate "/" parts.dropLast
    if d = "" then "/" else d

/-- Node `path.basename` for slash-separated paths without trailing
slashes: the final path component. -/
def basename (p : String) : String :=
  match (p.splitOn "/").getLast? with
  | some s => s
  | none => p

/-- Node `path.join dir name` for a directory without a trailing slash and a
plain filename: concatenation with a single separator. -/
def pathJoin (a b : String) : String := a ++ "/" ++ b

/-- The Attribution record that `addAttribution` builds from a photo and a
file path. `photo.user.name || photo.user.username` is JS `||`, so a `null`
or empty-string `name` falls back to `username`. `new Date().toISOString()`
is injected as the `now` argument (wall clock). -/
def mkAttribution (photo : Photo) (filePath : String) (now : String) :
    Attribution :=
  { id := photo.id
    photographer := jsOrString photo.user.name photo.user.username
    photographerUrl := some ("https://unsplash.com/@" ++ photo.user.username)
    source := "Unsplash"
    sourceUrl := photo.links.html
    license := "Unsplash License"
    downloadDate := now
    projectPath := some (dirname filePath)
    projectFile := some (basename filePath) }

/-- `addAttribution` on a well-formed in-memory database: builds the record,
stores it under the photo id key (`this.db.attributions[photo.id] = a`),
and returns it.  The synchronous `saveDatabase` call is modelled separately
(`saveDatabase` below); it does not change the in-memory state. -/
def addAttribution (db : AttributionDatabase) (photo : Photo)
    (filePath : String) (now : String) : AttributionDatabase × Attribution :=
  let attribution := mkAttribution photo filePath now
  ({ db with attributions := objSet db.attributions photo.id attribution },
   attribution)

/-- `getAttribution`: `this.db.attributions[photoId] || null`. Stored values
are attribution objects, which are always truthy, so `|| null` only turns
`undefined` (a missing key) into `null` — both modelled as `none`. -/
def getAttribution (db : AttributionDatabase) (photoId : String) :
    Option Attribution :=
  objGet db.attributions photoId

/-- `getAllAttributions`: `Object.values(this.db.attributions)`. -/
def getAllAttributions (db : AttributionDatabase) : List Attribution :=
  db.attributions.map Prod.snd

/-- `getAttributionsForProject`: filters by
`attr.projectPath && attr.projectPath.startsWith(projectPath)` — JS `&&`
first tests truthiness, so a missing or empty-string `projectPath` is
excluded even when it would pass the `startsWith` test. -/
def getAttributionsForProject (db : AttributionDatabase)
    (projectPath : String) : List Attribution :=
  (getAllAttributions db).filter fun attr =>
    match attr.projectPath with
    | some p => p != "" && jsStartsWith p projectPath
    | none => false

/- ===== Persistence: JSON encoding and the unvalidated load path ===== -/

/-- `JSON.stringify` of an Attribution object: properties in declaration
order; a property whose value is `undefined` (an absent optional field) is
omitted from the output. -/
def attributionToJson (a : Attribution) : Json :=
  .jobj ([("id", .jstr a.id), ("photographer", .jstr a.photographer)]
    ++ (match a.photographerUrl with
        | some u => [("photographerUrl", .jstr u)]
        | none => [])
    ++ [("source", .jstr a.source), ("sourceUrl", .jstr a.sourceUrl),
        ("license", .jstr a.license), ("downloadDate", .jstr a.downloadDate)]
    ++ (match a.projectPath with
        | some p => [("projectPath", .jstr p)]
        | none => [])
    ++ (match a.projectFile with
        | some f => [("projectFile", .jstr f)]
        | none => []))

/-- Structural read of an Attribution back out of its JSON encoding (used
only to state that a persisted record is the same record; the source itself
performs no such validation on load). -/
def jsonToAttribution (j : Json) : Option Attribution :=
  match j with
  | .jobj f =>
    match objGet f "id", objGet f "photographer", objGet f "source",
          objGet f "sourceUrl", objGet f "license",
          objGet f "downloadDate" with
    | some (.jstr i), some (.jstr ph), some (.jstr src), some (.jstr su),
      some (.jstr lic), some (.jstr dd) =>
      let pu := match objGet f "photographerUrl" with
        | some (.jstr u) => some u
        | _ => none
      let pp := match objGet f "projectPath" with
        | some (.jstr p) => some p
        | _ => none
      let pf := match objGet f "projectFile" with
        | some (.jstr p) => some p
        | _ => none
      some { id := i, photographer := ph, photographerUrl := pu,
             source := src, sourceUrl := su, license := lic,
             downloadDate := dd, projectPath := pp, projectFile := pf }
    | _, _, _, _, _, _ => none
  | _ => none

/-- `JSON.stringify` of a well-formed AttributionDatabase. -/
def dbToJson (db : AttributionDatabase) : Json :=
  .jobj [("attributions",
          .jobj (db.attributions.map fun kv => (kv.1, attributionToJson kv.2))),
         ("version", .jstr db.version)]

/-- The JSON form of the empty database that `loadDatabase` falls back to. -/
def emptyDatabaseJson : Json :=
  .jobj [("attributions", .jobj []), ("version", .jstr "1.0.0")]

/-- Content of the database file: either text that parses as JSON, or text
on which `JSON.parse` throws. -/
inductive FileContent where
  | parsed (j : Json)
  | invalid

/-- `loadDatabase`: if the file exists its text is read and `JSON.parse`d,
and the parsed value is adopted verbatim (`as AttributionDatabase` is a
compile-time cast with no runtime check). A missing file or a `JSON.parse`
failure (caught, with a warning) yields the empty database. -/
def loadDatabase (file : Option FileContent) : Json :=
  match file with
  | some (.parsed j) => j
  | some .invalid => emptyDatabaseJson
  | none => emptyDatabaseJson

/-- `saveDatabase`: writes `JSON.stringify(this.db)` over the file.
`JSON.parse ∘ JSON.stringify` is the identity on these values, so the file
is modelled as holding the JSON value itself. -/
def saveDatabase (db : Json) : Option FileContent :=
  some (.parsed db)

/- ===== Ledger operations over the untyped (post-load) state =====

After construction the in-memory `this.db` is whatever `loadDatabase`
produced — an arbitrary JSON value. Member access on it follows JS
semantics; `Except.error` models a thrown TypeError. -/

/-- `addAttribution` over an arbitrary in-memory state, performing
`this.db.attributions[photo.id] = attribution`:
* reading `.attributions` of `null` throws;
* on a primitive or array state `.attributions` is `undefined`, and
  assigning to a property of `undefined` throws;
* assigning to a property of `null` or (in strict mode, which ES modules
  are) of a primitive string/number/boolean throws;
* an array-valued `attributions` accepts the assignment as an ordinary JS
  property, which `JSON.stringify` then omits, so the JSON-level state is
  unchanged (integer-like photo ids, which would write an array index, are
  noted as out of scope of this model and are unreached below). -/
def addAttributionRaw (db : Json) (photo : Photo) (filePath : String)
    (now : String) : Except String (Json × Attribution) :=
  let attribution := mkAttribution photo filePath now
  match db with
  | .jnull =>
    .error "TypeError: cannot read properties of null (reading attributions)"
  | .jobj f =>
    match objGet f "attributions" with
    | none => .error "TypeError: cannot set properties of undefined"
    | some .jnull => .error "TypeError: cannot set properties of null"
    | some (.jobj g) =>
      .ok (.jobj (objSet f "attributions"
              (.jobj (objSet g photo.id (attributionToJson attribution)))),
           attribution)
    | some (.jstr _) =>
      .error "TypeError: cannot create property on string"
    | some (.jnum _) =>
      .error "TypeError: cannot create property on number"
    | some (.jbool _) =>
      .error "TypeError: cannot create property on boolean"
    | some (.jarr elems) => .ok (.jobj (objSet f "attributions" (.jarr elems)),
                                 attribution)
  | .jstr _ => .error "TypeError: cannot set properties of undefined"
  | .jnum _ => .error "TypeError: cannot set properties of undefined"
  | .jbool _ => .error "TypeError: cannot set properties of undefined"
  | .jarr _ => .error "TypeError: cannot set properties of undefined"

/-- `getAttribution` over an arbitrary in-memory state:
`this.db.attributions[photoId] || null`. Reading a property of `null` or of
`undefined` throws; reading a property of a primitive yields `undefined`
(string index/length properties and array index reads of an ill-shaped
`attributions` value are modelled as `undefined`; they are unreached by the
theorems below). A falsy stored value is turned into `null` by `||`. -/
def getAttributionRaw (db : Json) (photoId : String) :
    Except String (Option Json) :=
  match db with
  | .jnull =>
    .error "TypeError: cannot read properties of null (reading attributions)"
  | .jobj f =>
    match objGet f "attributions" with
    | none => .error "TypeError: cannot read properties of undefined"
    | some .jnull => .error "TypeError: cannot read properties of null"
    | some (.jobj g) =>
      match objGet g photoId with
      | some v => .ok (if jsTruthy v then some v else none)
      | none => .ok none
    | some _ => .ok none
  | .jstr _ => .error "TypeError: cannot read properties of undefined"
  | .jnum _ => .error "TypeError: cannot read properties of undefined"
  | .jbool _ => .error "TypeError: cannot read properties of undefined"
  | .jarr _ => .error "TypeError: cannot read properties of undefined"

/- ===== Response schema validators (zod schemas as Json → Bool) =====

`schema.safeParse(data).success` for the schemas in unsplashTypes.ts.
zod objects accept (and strip) unknown keys, so only the declared fields
are checked. `z.string().url()` and `z.string().datetime()` additionally
check the string's format; those format checks are elided here (any string
passes) — no theorem below depends on their verdict, every schema failure
exercised is a missing or wrongly-typed field. -/

/-- Field check for `z.string()`. -/
def validStr : Option Json → Bool
  | some (.jstr _) => true
  | _ => false

/-- Field check for `z.string().nullable()`. -/
def validNullableStr : Option Json → Bool
  | some (.jstr _) => true
  | some .jnull => true
  | _ => false

/-- Field check for `z.string().nullable().optional()` (also used for the
elided-format `z.string().datetime().optional()` and
`z.string().url().nullable().optional()`). -/
def validOptNullableStr : Option Json → Bool
  | none => true
  | some .jnull => true
  | some (.jstr _) => true
  | _ => false

/-- Field check for `z.number().int()` (integral JSON number). -/
def validInt : Option Json → Bool
  | some (.jnum _) => true
  | _ => false

/-- UrlsSchema as a validator. -/
def urlsValid : Option Json → Bool
  | some (.jobj f) =>
    validStr (objGet f "raw") && validStr (objGet f "full") &&
    validStr (objGet f "regular") && validStr (objGet f "small") &&
    validStr (objGet f "thumb")
  | _ => false

/-- LinksSchema as a validator. -/
def linksValid : Option Json → Bool
  | some (.jobj f) =>
    validStr (objGet f "self") && validStr (objGet f "html") &&
    validStr (objGet f "download") && validStr (objGet f "download_location")
  | _ => false

/-- UserSchema as a validator. -/
def userValid : Option Json → Bool
  | some (.jobj f) =>
    validStr (objGet f "id") && validStr (objGet f "username") &&
    validNullableStr (objGet f "name") &&
    validOptNullableStr (objGet f "portfolio_url") &&
    validOptNullableStr (objGet f "bio") &&
    validOptNullableStr (objGet f "location") &&
    validOptNullableStr (objGet f "instagram_username") &&
    validOptNullableStr (objGet f "twitter_username")
  | _ => false

/-- PhotoSchema as a validator. -/
def photoValid (j : Json) : Bool :=
  match j with
  | .jobj f =>
    validStr (objGet f "id") &&
    validOptNullableStr (objGet f "created_at") &&
    validOptNullableStr (objGet f "updated_at") &&
    validInt (objGet f "width") && validInt (objGet f "height") &&
    validOptNullableStr (objGet f "color") &&
    validOptNullableStr (objGet f "blur_hash") &&
    validNullableStr (objGet f "description") &&
    validNullableStr (objGet f "alt_description") &&
    urlsValid (objGet f "urls") && linksValid (objGet f "links") &&
    userValid (objGet f "user")
  | _ => false

/-- SearchResultsSchema as a validator. -/
def searchResultsValid (j : Json) : Bool :=
  match j with
  | .jobj f =>
    validInt (objGet f "total") && validInt (objGet f "total_pages") &&
    (match objGet f "results" with
     | some (.jarr elems) => elems.all photoValid
     | _ => false)
  | _ => false

/- ===== API client: the `request` retry loop (unsplashClient.ts) ===== -/

/-- `const MAX_RETRIES = 3`. -/
def MAX_RETRIES : Nat := 3

/-- `const RETRY_DELAYS = [1000, 2000, 4000]` (exponential backoff, ms). -/
def RETRY_DELAYS : List Nat := [1000, 2000, 4000]

/-- One HTTP response as the loop observes it. `retryAfterSecs` is the
numeric value of a present `Retry-After` header (the source applies
`parseInt`; non-numeric headers are outside this model). `body` is the
result of `response.json()`: `none` when the body is not valid JSON (the
promise rejects). `bodyText` is `response.text()` used in error messages.
The rate-limit bookkeeping headers (`updateRateLimitFromHeaders`) only feed
the observability counters and are not modelled. -/
structure HttpResponse where
  status : Nat
  retryAfterSecs : Option Nat
  contentLength0 : Bool
  body : Option Json
  bodyText : String

/-- Outcome of one `fetch` call: a response, or a rejection carrying an
error `code` (e.g. `"ECONNRESET"`). -/
inductive FetchOutcome where
  | success (r : HttpResponse)
  | netError (code : String)

/-- Observable effects of one run of the request loop. -/
inductive ReqEvent where
  | fetchAttempt
  | sleep (ms : Nat)
deriving DecidableEq

/-- Result of the request loop: a validated value, or the `throw lastError`
at the end — `thrown none` is `throw null`, which happens when the loop
exhausts its attempts without ever recording an error (all responses 429). -/
inductive ReqOutcome where
  | ok (data : Json)
  | thrown (e : Option String)

/-- `429` wait: `Retry-After` seconds times 1000, else 60000 ms. -/
def rateLimitWaitMs (r : HttpResponse) : Nat :=
  match r.retryAfterSecs with
  | some s => s * 1000
  | none => 60000

/-- The error message thrown for a non-ok, non-retried response:
`Unsplash API error (status): bodyText`. -/
def apiErrorMsg (r : HttpResponse) : String :=
  "Unsplash API error (" ++ toString r.status ++ "): " ++ r.bodyText

/-- The `for (let attempt = 0; attempt <= MAX_RETRIES; attempt++)` loop of
`UnsplashClient.request`, with `fuel + 1` iterations remaining and
`attempt = MAX_RETRIES - fuel`; `fuel = 0` is the final iteration, after
which the loop exits and `throw lastError` runs. `responses i` scripts the
outcome of the fetch on attempt `i`; `validate` is the zod schema of the
operation; `isDownload` is `endpoint.includes('/download')`. Branches in
source order: 429 (sleep the Retry-After wait, `continue` — which still
advances the loop counter); 5xx with attempts left (backoff sleep, retry);
`!response.ok` (throw, which the loop's catch swallows, retrying with no
sleep unless this was the last attempt); 204/empty body (empty result);
JSON parse or schema failure (throw, same catch); success. In the catch,
only `ECONNRESET` network errors sleep before retrying. -/
def requestAux (validate : Json → Bool) (isDownload : Bool)
    (responses : Nat → FetchOutcome) :
    Nat → Option String → ReqOutcome × List ReqEvent
  | 0, lastError => (.thrown lastError, [])
  | fuel + 1, lastError =>
    let attempt := MAX_RETRIES - fuel
    match responses attempt with
    | .netError code =>
      let err := some ("network error: " ++ code)
      if 0 < fuel ∧ code = "ECONNRESET" then
        let rest := requestAux validate isDownload responses fuel err
        (rest.1, .fetchAttempt :: .sleep (RETRY_DELAYS.getD attempt 0) :: rest.2)
      else if fuel = 0 then (.thrown err, [.fetchAttempt])
      else
        let rest := requestAux validate isDownload responses fuel err
        (rest.1, .fetchAttempt :: rest.2)
    | .success r =>
      if r.status = 429 then
        let rest := requestAux validate isDownload responses fuel lastError
        (rest.1, .fetchAttempt :: .sleep (rateLimitWaitMs r) :: rest.2)
      else if 500 ≤ r.status ∧ 0 < fuel then
        let rest := requestAux validate isDownload responses fuel lastError
        (rest.1, .fetchAttempt :: .sleep (RETRY_DELAYS.getD attempt 0) :: rest.2)
      else if ¬ (200 ≤ r.status ∧ r.status ≤ 299) then
        let err := some (apiErrorMsg r)
        if fuel = 0 then (.thrown err, [.fetchAttempt])
        else
          let rest := requestAux validate isDownload responses fuel err
          (rest.1, .fetchAttempt :: rest.2)
      else if r.status = 204 ∨ r.contentLength0 then
        ((.ok (if isDownload then .jobj [("url", .jstr "")] else .jobj [])),
         [.fetchAttempt])
      else
        match r.body with
        | none =>
          let err := some "invalid JSON in response body"
          if fuel = 0 then (.thrown err, [.fetchAttempt])
          else
            let rest := requestAux validate isDownload responses fuel err
            (rest.1, .fetchAttempt :: rest.2)
        | some data =>
          if validate data then (.ok data, [.fetchAttempt])
          else
            let err := some "Invalid data received from Unsplash API"
            if fuel = 0 then (.thrown err, [.fetchAttempt])
            else
              let rest := requestAux validate isDownload responses fuel err
              (rest.1, .fetchAttempt :: rest.2)

/-- `UnsplashClient.request`: the loop entered at attempt 0 with
`lastError = null`. `searchPhotos`, `getPhotoById` and `trackDownload`'s
underlying request all run this loop, instantiating `validate` with their
schema. -/
def request (validate : Json → Bool) (isDownload : Bool)
    (responses : Nat → FetchOutcome) : ReqOutcome × List ReqEvent :=
  requestAux validate isDownload responses (MAX_RETRIES + 1) none

/-- Number of fetch attempts in a trace. -/
def countAttempts (trace : List ReqEvent) : Nat :=
  trace.countP fun e => e = ReqEvent.fetchAttempt

/- ===== API client: `downloadPhoto` (unsplashClient.ts) ===== -/

/-- Observable effects of a `downloadPhoto` run, in order. -/
inductive DlEvent where
  | ensureDir (dir : String)
  | trackDownload (photoId : String)
  | fetchUrl (url : String)
  | sleep (ms : Nat)
  | writeFile (filePath : String)
deriving DecidableEq

/-- Outcome of one image fetch-and-write round: the fetch resolved ok and
the streamed write finished; the fetch resolved non-ok with a status and
status text; the write failed after an ok fetch; or the fetch rejected. -/
inductive DlFetchOutcome where
  | ok
  | httpError (status : Nat) (statusText : String)
  | writeError (msg : String)
  | netError (msg : String)

/-- Result of `downloadPhoto`: the file path, or `throw lastError`. -/
inductive DlResult where
  | ok (filePath : String)
  | thrown (e : Option String)
deriving DecidableEq

/-- The retry loop of `downloadPhoto` (`attempt = MAX_RETRIES - fuel`, as in
`requestAux`). A non-ok response below 500, or at the last attempt, throws
`Failed to download image: status statusText`; the surrounding catch then
sleeps the backoff delay and retries whenever attempts remain — unlike the
`request` loop, this catch retries every error with a backoff sleep. On a
write failure the write stream had already been opened; the failed write is
not recorded as a `writeFile` event. -/
def downloadAux (url : String) (filePath : String)
    (outcomes : Nat → DlFetchOutcome) :
    Nat → Option String → DlResult × List DlEvent
  | 0, lastError => (.thrown lastError, [])
  | fuel + 1, lastError =>
    let attempt := MAX_RETRIES - fuel
    match outcomes attempt with
    | .ok => (.ok filePath, [.fetchUrl url, .writeFile filePath])
    | .httpError st stx =>
      if 500 ≤ st ∧ 0 < fuel then
        let rest := downloadAux url filePath outcomes fuel lastError
        (rest.1, .fetchUrl url :: .sleep (RETRY_DELAYS.getD attempt 0) :: rest.2)
      else
        let err := some ("Failed to download image: " ++ toString st ++ " " ++ stx)
        if 0 < fuel then
          let rest := downloadAux url filePath outcomes fuel err
          (rest.1, .fetchUrl url :: .sleep (RETRY_DELAYS.getD attempt 0) :: rest.2)
        else (.thrown err, [.fetchUrl url])
    | .writeError m =>
      let err := some m
      if 0 < fuel then
        let rest := downloadAux url filePath outcomes fuel err
        (rest.1, .fetchUrl url :: .sleep (RETRY_DELAYS.getD attempt 0) :: rest.2)
      else (.thrown err, [.fetchUrl url])
    | .netError m =>
      let err := some m
      if 0 < fuel then
        let rest := downloadAux url filePath outcomes fuel err
        (rest.1, .fetchUrl url :: .sleep (RETRY_DELAYS.getD attempt 0) :: rest.2)
      else (.thrown err, [.fetchUrl url])

/-- `UnsplashClient.downloadPhoto(photo, downloadDir, customFilename?,
customUrl?)`: ensures the directory exists, awaits `trackDownload(photo.id)`
(which never throws — it swallows its own failures), computes
`filenameBase = customFilename || "unsplash-" + photo.id` (JS `||`: an
empty-string override also falls back), `filename = filenameBase + ".jpg"`,
`filePath = path.join(downloadDir, filename)`,
`downloadUrl = customUrl || photo.urls.full`, then runs the retry loop. -/
def downloadPhoto (photo : Photo) (downloadDir : String)
    (customFilename : Option String) (customUrl : Option String)
    (outcomes : Nat → DlFetchOutcome) : DlResult × List DlEvent :=
  let filenameBase := jsOrString customFilename ("unsplash-" ++ photo.id)
  let filename := filenameBase ++ ".jpg"
  let filePath := pathJoin downloadDir filename
  let downloadUrl := jsOrString customUrl photo.urls.full
  let rest := downloadAux downloadUrl filePath outcomes (MAX_RETRIES + 1) none
  (rest.1, .ensureDir downloadDir :: .trackDownload photo.id :: rest.2)

/- ===== Reachable ledger states ===== -/

/-- In-memory ledger states reachable from the empty database by ledger
operations. `addAttribution` is the only operation that assigns to
`this.db`; `getAttribution`, `getAllAttributions`,
`getAttributionsForProject`, `generateAttributionHtml`,
`saveAttributionHtml`, `generateReactComponent` and `saveDatabase` only
read it, so any of them is the `read` step, leaving the state unchanged. -/
inductive Reachable : AttributionDatabase → Prop where
  | init : Reachable emptyDatabase
  | add (db : AttributionDatabase) (photo : Photo) (filePath now : String) :
      Reachable db → Reachable (addAttribution db photo filePath now).1
  | read (db : AttributionDatabase) : Reachable db → Reachable db

/-- The ledger invariant: every key of the attributions mapping equals the
`id` field of the record stored under it. -/
def KeysMatchIds (db : AttributionDatabase) : Prop :=
  ∀ k a, (k, a) ∈ db.attributions → a.id = k

/- ===== Helper lemmas on JS object operations ===== -/

theorem objGet_objSet_self {α : Type} (l : List (String × α)) (k : String)
    (v : α) : objGet (objSet l k v) k = some v := by
  induction l with
  | nil => simp [objGet, objSet]
  | cons hd tl ih =>
    by_cases hk : hd.1 = k
    · simp [objGet, objSet, hk]
    · simp [objGet, objSet, hk, ih]

theorem mem_objSet {α : Type} {l : List (String × α)} {k k' : String}
    {v a : α} (h : (k', a) ∈ objSet l k v) :
    (k', a) ∈ l ∨ (k' = k ∧ a = v) := by
  induction l with
  | nil => simp [objSet] at h; right; exact ⟨h.1, h.2⟩
  | cons hd tl ih =>
    unfold objSet at h
    by_cases hk : hd.1 = k
    · rw [if_pos hk] at h
      rcases List.mem_cons.mp h with h1 | h1
      · right
        have : k' = hd.1 ∧ a = v := by
          cases h1; exact ⟨rfl, rfl⟩
        exact ⟨this.1.trans hk, this.2⟩
      · left; exact List.mem_cons_of_mem _ h1
    · rw [if_neg hk] at h
      rcases List.mem_cons.mp h with h1 | h1
      · left; rw [h1]; exact List.mem_cons_self _ _
      · rcases ih h1 with h2 | h2
        · left; exact List.mem_cons_of_mem _ h2
        · right; exact h2

/- ===== Concrete fixtures (mirroring the repo's mock photo) ===== -/

def urlsEx : Urls :=
  { raw := "https://images.unsplash.com/mock-photo-raw"
    full := "https://images.unsplash.com/mock-photo-full"
    regular := "https://images.unsplash.com/mock-photo-regular"
    small := "https://images.unsplash.com/mock-photo-small"
    thumb := "https://images.unsplash.com/mock-photo-thumb" }

def linksEx : Links :=
  { self := "https://api.unsplash.com/photos/mock-photo-123"
    html := "https://unsplash.com/photos/mock-photo-123"
    download := "https://unsplash.com/photos/mock-photo-123/download"
    download_location :=
      "https://api.unsplash.com/photos/mock-photo-123/download" }

def userEx : User :=
  { id := "mock-user-1"
    username := "mockphotographer"
    name := some "Mock Photographer"
    portfolio_url := none
    bio := none
    location := none
    instagram_username := none
    twitter_username := none }

def photoEx : Photo :=
  { id := "mock-photo-123"
    created_at := none
    updated_at := none
    width := 4000
    height := 3000
    color := none
    blur_hash := none
    description := some "A mock photo"
    alt_description := none
    urls := urlsEx
    links := linksEx
    user := userEx }

/-- A photo whose user has an empty-string display name (allowed by
`z.string().nullable()`). -/
def photoEmptyName : Photo :=
  { photoEx with
    id := "empty-name-photo"
    user := { userEx with name := some "" } }

/-- A fixed wall-clock timestamp for the examples. -/
def nowEx : String := "2024-01-01T00:00:00.000Z"

/- ===== Step lemmas for the request loop ===== -/

theorem requestAux_exhausted (v : Json → Bool) (d : Bool)
    (resp : Nat → FetchOutcome) (le : Option String) :
    requestAux v d resp 0 le = (.thrown le, []) := rfl

theorem requestAux_429 (v : Json → Bool) (d : Bool)
    (resp : Nat → FetchOutcome) (fuel : Nat) (le : Option String)
    (r : HttpResponse) (hresp : resp (MAX_RETRIES - fuel) = .success r)
    (h429 : r.status = 429) :
    requestAux v d resp (fuel + 1) le =
      ((requestAux v d resp fuel le).1,
       .fetchAttempt :: .sleep (rateLimitWaitMs r) ::
         (requestAux v d resp fuel le).2) := by
  simp [requestAux, hresp, h429]

theorem requestAux_5xx_retry (v : Json → Bool) (d : Bool)
    (resp : Nat → FetchOutcome) (fuel : Nat) (le : Option String)
    (r : HttpResponse) (hresp : resp (MAX_RETRIES - fuel) = .success r)
    (h5 : 500 ≤ r.status) (hfuel : 0 < fuel) :
    requestAux v d resp (fuel + 1) le =
      ((requestAux v d resp fuel le).1,
       .fetchAttempt :: .sleep (RETRY_DELAYS.getD (MAX_RETRIES - fuel) 0) ::
         (requestAux v d resp fuel le).2) := by
  have h429 : ¬ r.status = 429 := by omega
  simp [requestAux, hresp, h429, h5, hfuel]

theorem requestAux_throw_retry (v : Json → Bool) (d : Bool)
    (resp : Nat → FetchOutcome) (fuel : Nat) (le : Option String)
    (r : HttpResponse) (hresp : resp (MAX_RETRIES - fuel) = .success r)
    (h429 : ¬ r.status = 429) (h5 : r.status < 500)
    (hok : ¬ (200 ≤ r.status ∧ r.status ≤ 299)) (hfuel : 0 < fuel) :
    requestAux v d resp (fuel + 1) le =
      ((requestAux v d resp fuel (some (apiErrorMsg r))).1,
       .fetchAttempt ::
         (requestAux v d resp fuel (some (apiErrorMsg r))).2) := by
  have h5n : ¬ (500 ≤ r.status ∧ 0 < fuel) := by omega
  have hfz : ¬ fuel = 0 := by omega
  simp [requestAux, hresp, h429, h5n, hok, hfz]

theorem requestAux_throw_last (v : Json → Bool) (d : Bool)
    (resp : Nat → FetchOutcome) (le : Option String)
    (r : HttpResponse) (hresp : resp MAX_RETRIES = .success r)
    (h429 : ¬ r.status = 429)
    (hok : ¬ (200 ≤ r.status ∧ r.status ≤ 299)) :
    requestAux v d resp 1 le = (.thrown (some (apiErrorMsg r)), [.fetchAttempt]) := by
  have h5n : ¬ (500 ≤ r.status ∧ (0 : Nat) < 0) := by omega
  simp [requestAux, hresp, h429, h5n, hok]

theorem requestAux_invalid_retry (v : Json → Bool) (d : Bool)
    (resp : Nat → FetchOutcome) (fuel : Nat) (le : Option String)
    (r : HttpResponse) (data : Json)
    (hresp : resp (MAX_RETRIES - fuel) = .success r)
    (hok : 200 ≤ r.status ∧ r.status ≤ 299) (h204 : ¬ r.status = 204)
    (hcl : r.contentLength0 = false) (hbody : r.body = some data)
    (hval : v data = false) (hfuel : 0 < fuel) :
    requestAux v d resp (fuel + 1) le =
      ((requestAux v d resp fuel
          (some "Invalid data received from Unsplash API")).1,
       .fetchAttempt ::
         (requestAux v d resp fuel
           (some "Invalid data received from Unsplash API")).2) := by
  have h429 : ¬ r.status = 429 := by omega
  have h5n : ¬ (500 ≤ r.status ∧ 0 < fuel) := by omega
  have hfz : ¬ fuel = 0 := by omega
  simp [requestAux, hresp, h429, h5n, hok, h204, hcl, hbody, hval, hfz]

theorem requestAux_invalid_last (v : Json → Bool) (d : Bool)
    (resp : Nat → FetchOutcome) (le : Option String)
    (r : HttpResponse) (data : Json)
    (hresp : resp MAX_RETRIES = .success r)
    (hok : 200 ≤ r.status ∧ r.status ≤ 299) (h204 : ¬ r.status = 204)
    (hcl : r.contentLength0 = false) (hbody : r.body = some data)
    (hval : v data = false) :
    requestAux v d resp 1 le =
      (.thrown (some "Invalid data received from Unsplash API"),
       [.fetchAttempt]) := by
  have h429 : ¬ r.status = 429 := by omega
  have h5n : ¬ (500 ≤ r.status ∧ (0 : Nat) < 0) := by omega
  simp [requestAux, hresp, h429, h5n, hok, h204, hcl, hbody, hval]

/- ===== Claim C1 ===== -/

/-- A 429 response carrying `Retry-After: 2`. -/
def resp429 : HttpResponse :=
  { status := 429, retryAfterSecs := some 2, contentLength0 := false,
    body := none, bodyText := "Rate Limit Exceeded" }

/-- C1 (counterexample): the claim says a run in which all responses are 429
has a number of retries not bounded by the 3-retry budget. False: the 429
branch's `continue` still advances the `for` counter, so the all-429 run
makes exactly `MAX_RETRIES + 1 = 4` fetch attempts and then leaves the loop,
reaching `throw lastError` with `lastError` still `null`. -/
theorem c1_counterexample :
    (request (fun _ => true) false (fun _ => .success resp429)).1 =
        ReqOutcome.thrown none ∧
    countAttempts
        (request (fun _ => true) false (fun _ => .success resp429)).2 =
      MAX_RETRIES + 1 :=
  ⟨rfl, rfl⟩

/-- C1 (amended): on HTTP 429 the client sleeps for the `Retry-After` header
value in seconds when present (else 60 seconds) and then retries, but such a
rate-limit retry does count toward the attempt budget: in a run where every
response is 429 the client makes exactly `MAX_RETRIES + 1 = 4` attempts,
each followed by the rate-limit wait, and then throws the recorded last
error, which is still `null`. -/
theorem c1_rate_limit_retry_amended (v : Json → Bool) (d : Bool)
    (r : Nat → HttpResponse)
    (h : ∀ i, i ≤ MAX_RETRIES → (r i).status = 429) :
    request v d (fun i => .success (r i)) =
      (.thrown none,
       [.fetchAttempt, .sleep (rateLimitWaitMs (r 0)),
        .fetchAttempt, .sleep (rateLimitWaitMs (r 1)),
        .fetchAttempt, .sleep (rateLimitWaitMs (r 2)),
        .fetchAttempt, .sleep (rateLimitWaitMs (r 3))]) := by
  unfold request
  rw [show MAX_RETRIES + 1 = 3 + 1 from rfl,
      requestAux_429 v d _ 3 none (r 0) rfl (h 0 (by decide)),
      show (3 : Nat) = 2 + 1 from rfl,
      requestAux_429 v d _ 2 none (r 1) rfl (h 1 (by decide)),
      show (2 : Nat) = 1 + 1 from rfl,
      requestAux_429 v d _ 1 none (r 2) rfl (h 2 (by decide)),
      show (1 : Nat) = 0 + 1 from rfl,
      requestAux_429 v d _ 0 none (r 3) rfl (h 3 (by decide)),
      requestAux_exhausted]

/-- All-429 script with varying Retry-After headers (absent on attempt 0). -/
def wit429 (i : Nat) : HttpResponse :=
  { status := 429, retryAfterSecs := if i = 0 then none else some i,
    contentLength0 := false, body := none, bodyText := "Rate Limit Exceeded" }

/-- C1 (witness): the amended theorem at a concrete all-429 script — four
attempts, waiting 60 s where the header is absent and `Retry-After` seconds
where present, ending in `throw null`. -/
theorem c1_amended_witness :
    request (fun _ => true) false (fun i => .success (wit429 i)) =
      (.thrown none,
       [.fetchAttempt, .sleep 60000, .fetchAttempt, .sleep 1000,
        .fetchAttempt, .sleep 2000, .fetchAttempt, .sleep 3000]) :=
  c1_rate_limit_retry_amended (fun _ => true) false wit429 (fun _ _ => rfl)

/- ===== Claim C2 ===== -/

/-- A 400 response. -/
def resp400 : HttpResponse :=
  { status := 400, retryAfterSecs := none, contentLength0 := false,
    body := some (.jobj []), bodyText := "Bad Request" }

/-- C2 (counterexample): the claim says a non-2xx/429/5xx response gets
exactly 1 attempt. False: the `throw` for such a response is caught by the
loop's own `catch`, which does not rethrow until the last attempt, so with
every response 400 the client makes 4 fetch attempts, not 1, before raising
the error (whose message does contain the status code and body text). -/
theorem c2_counterexample :
    countAttempts
        (request (fun _ => true) false (fun _ => .success resp400)).2 = 4 ∧
    countAttempts
        (request (fun _ => true) false (fun _ => .success resp400)).2 ≠ 1 ∧
    (request (fun _ => true) false (fun _ => .success resp400)).1 =
      ReqOutcome.thrown (some "Unsplash API error (400): Bad Request") :=
  ⟨rfl, by decide, rfl⟩

/-- C2 (amended): for responses whose status is not 2xx, not 429 and not
5xx, the client throws an error whose message contains the upstream status
code and body text, but the throw is caught by the retry loop, which
retries immediately — with no sleep — until the attempt budget is spent:
when every response is such a client error, the run makes exactly
`MAX_RETRIES + 1 = 4` attempts and finally raises the last attempt's error,
containing that response's status code and body text. -/
theorem c2_client_error_retried_amended (v : Json → Bool) (d : Bool)
    (r : Nat → HttpResponse)
    (h : ∀ i, i ≤ MAX_RETRIES →
      ¬ (200 ≤ (r i).status ∧ (r i).status ≤ 299) ∧
      ¬ (r i).status = 429 ∧ (r i).status < 500) :
    request v d (fun i => .success (r i)) =
      (.thrown (some (apiErrorMsg (r 3))),
       [.fetchAttempt, .fetchAttempt, .fetchAttempt, .fetchAttempt]) := by
  unfold request
  rw [show MAX_RETRIES + 1 = 3 + 1 from rfl,
      requestAux_throw_retry v d _ 3 none (r 0) rfl (h 0 (by decide)).2.1
        (h 0 (by decide)).2.2 (h 0 (by decide)).1 (by decide),
      show (3 : Nat) = 2 + 1 from rfl,
      requestAux_throw_retry v d _ 2 _ (r 1) rfl (h 1 (by decide)).2.1
        (h 1 (by decide)).2.2 (h 1 (by decide)).1 (by decide),
      show (2 : Nat) = 1 + 1 from rfl,
      requestAux_throw_retry v d _ 1 _ (r 2) rfl (h 2 (by decide)).2.1
        (h 2 (by decide)).2.2 (h 2 (by decide)).1 (by decide),
      requestAux_throw_last v d _ _ (r 3) rfl (h 3 (by decide)).2.1
        (h 3 (by decide)).1]

/-- A 404 response. -/
def resp404 : HttpResponse :=
  { status := 404, retryAfterSecs := none, contentLength0 := false,
    body := some (.jobj []), bodyText := "Not Found" }

/-- C2 (witness): the amended theorem at an all-404 script. -/
theorem c2_amended_witness :
    request (fun _ => true) false (fun _ => .success resp404) =
      (.thrown (some "Unsplash API error (404): Not Found"),
       [.fetchAttempt, .fetchAttempt, .fetchAttempt, .fetchAttempt]) :=
 by
  have hA : ¬ (200 ≤ resp404.status ∧ resp404.status ≤ 299) := by decide
  have hB : ¬ resp404.status = 429 := by decide
  have hC : resp404.status < 500 := by decide
  exact c2_client_error_retried_amended (fun _ => true) false
    (fun _ => resp404) (fun _ _ => ⟨hA, hB, hC⟩)

/- ===== Claim C3 ===== -/

/-- A 200 response whose body does not satisfy SearchResultsSchema
(mirroring the repo's own schema-validation test fixture). -/
def respInvalidBody : HttpResponse :=
  { status := 200, retryAfterSecs := none, contentLength0 := false,
    body := some (.jobj [("invalid", .jstr "data")]), bodyText := "" }

/-- C3 (counterexample): the claim says a 2xx response failing schema
validation gets exactly 1 attempt and is never retried. False: the
validation `throw` is caught by the loop's `catch` and retried like any
other in-loop error, so with every response 200-but-invalid the
`searchPhotos` request makes 4 attempts before raising the validation
error. -/
theorem c3_counterexample :
    countAttempts (request searchResultsValid false
        (fun _ => .success respInvalidBody)).2 = 4 ∧
    countAttempts (request searchResultsValid false
        (fun _ => .success respInvalidBody)).2 ≠ 1 ∧
    (request searchResultsValid false
        (fun _ => .success respInvalidBody)).1 =
      ReqOutcome.thrown (some "Invalid data received from Unsplash API") :=
  ⟨rfl, by decide, rfl⟩

/-- C3 (amended): a 2xx response whose JSON body fails the operation's
schema raises `Invalid data received from Unsplash API`, but the loop's
catch retries it — without sleeping — until the budget is spent: with every
response 2xx-and-invalid, the client makes exactly `MAX_RETRIES + 1 = 4`
attempts and then raises the validation error. -/
theorem c3_validation_error_retried_amended (v : Json → Bool) (d : Bool)
    (r : Nat → HttpResponse) (data : Nat → Json)
    (h : ∀ i, i ≤ MAX_RETRIES →
      (200 ≤ (r i).status ∧ (r i).status ≤ 299) ∧
      ¬ (r i).status = 204 ∧ (r i).contentLength0 = false ∧
      (r i).body = some (data i) ∧ v (data i) = false) :
    request v d (fun i => .success (r i)) =
      (.thrown (some "Invalid data received from Unsplash API"),
       [.fetchAttempt, .fetchAttempt, .fetchAttempt, .fetchAttempt]) := by
  unfold request
  rw [show MAX_RETRIES + 1 = 3 + 1 from rfl,
      requestAux_invalid_retry v d _ 3 none (r 0) (data 0) rfl
        (h 0 (by decide)).1 (h 0 (by decide)).2.1 (h 0 (by decide)).2.2.1
        (h 0 (by decide)).2.2.2.1 (h 0 (by decide)).2.2.2.2 (by decide),
      show (3 : Nat) = 2 + 1 from rfl,
      requestAux_invalid_retry v d _ 2 _ (r 1) (data 1) rfl
        (h 1 (by decide)).1 (h 1 (by decide)).2.1 (h 1 (by decide)).2.2.1
        (h 1 (by decide)).2.2.2.1 (h 1 (by decide)).2.2.2.2 (by decide),
      show (2 : Nat) = 1 + 1 from rfl,
      requestAux_invalid_retry v d _ 1 _ (r 2) (data 2) rfl
        (h 2 (by decide)).1 (h 2 (by decide)).2.1 (h 2 (by decide)).2.2.1
        (h 2 (by decide)).2.2.2.1 (h 2 (by decide)).2.2.2.2 (by decide),
      requestAux_invalid_last v d _ _ (r 3) (data 3) rfl
        (h 3 (by decide)).1 (h 3 (by decide)).2.1 (h 3 (by decide)).2.2.1
        (h 3 (by decide)).2.2.2.1 (h 3 (by decide)).2.2.2.2]

/-- C3 (witness): the amended theorem at the concrete invalid-body script
against SearchResultsSchema. -/
theorem c3_amended_witness :
    request searchResultsValid false (fun _ => .success respInvalidBody) =
      (.thrown (some "Invalid data received from Unsplash API"),
       [.fetchAttempt, .fetchAttempt, .fetchAttempt, .fetchAttempt]) :=
 by
  have hA : 200 ≤ respInvalidBody.status ∧ respInvalidBody.status ≤ 299 := by
    decide
  have hB : ¬ respInvalidBody.status = 204 := by decide
  have hC : respInvalidBody.contentLength0 = false := by decide
  have hE : searchResultsValid (.jobj [("invalid", .jstr "data")]) = false := by
    decide
  exact c3_validation_error_retried_amended searchResultsValid false
    (fun _ => respInvalidBody) (fun _ => .jobj [("invalid", .jstr "data")])
    (fun _ _ => ⟨hA, hB, hC, rfl, hE⟩)

/- ===== Claim C4 ===== -/

/-- C4 (confirmed): when every attempt gets a status in {500, 502, 503},
the client sleeps the exponential backoff 1 s, 2 s, 4 s between attempts,
makes exactly `MAX_RETRIES + 1 = 4` attempts, and surfaces the last
encountered error — the API error of the final response. -/
theorem c4_server_error_backoff (v : Json → Bool) (d : Bool)
    (r : Nat → HttpResponse)
    (h : ∀ i, i ≤ MAX_RETRIES →
      (r i).status = 500 ∨ (r i).status = 502 ∨ (r i).status = 503) :
    request v d (fun i => .success (r i)) =
      (.thrown (some (apiErrorMsg (r 3))),
       [.fetchAttempt, .sleep 1000, .fetchAttempt, .sleep 2000,
        .fetchAttempt, .sleep 4000, .fetchAttempt]) := by
  have h5 : ∀ i, i ≤ MAX_RETRIES → 500 ≤ (r i).status := by
    intro i hi
    rcases h i hi with h1 | h1 | h1 <;> omega
  have hlast429 : ¬ (r 3).status = 429 := by
    have := h5 3 (by decide); omega
  have hlastok : ¬ (200 ≤ (r 3).status ∧ (r 3).status ≤ 299) := by
    have := h5 3 (by decide); omega
  unfold request
  rw [show MAX_RETRIES + 1 = 3 + 1 from rfl,
      requestAux_5xx_retry v d _ 3 none (r 0) rfl (h5 0 (by decide))
        (by decide),
      show (3 : Nat) = 2 + 1 from rfl,
      requestAux_5xx_retry v d _ 2 none (r 1) rfl (h5 1 (by decide))
        (by decide),
      show (2 : Nat) = 1 + 1 from rfl,
      requestAux_5xx_retry v d _ 1 none (r 2) rfl (h5 2 (by decide))
        (by decide),
      requestAux_throw_last v d _ _ (r 3) rfl hlast429 hlastok]
  rfl

/-- A 503 response. -/
def resp503 : HttpResponse :=
  { status := 503, retryAfterSecs := none, contentLength0 := false,
    body := none, bodyText := "Service Unavailable" }

/-- C4 (witness): the backoff theorem at an all-503 script. -/
theorem c4_witness :
    request (fun _ => true) false (fun _ => .success resp503) =
      (.thrown (some "Unsplash API error (503): Service Unavailable"),
       [.fetchAttempt, .sleep 1000, .fetchAttempt, .sleep 2000,
        .fetchAttempt, .sleep 4000, .fetchAttempt]) :=
 by
  have hA : resp503.status = 500 ∨ resp503.status = 502 ∨
      resp503.status = 503 := by decide
  exact c4_server_error_backoff (fun _ => true) false (fun _ => resp503)
    (fun _ _ => hA)

/- ===== Claim C5 ===== -/

/-- C5 (counterexample): the claim says the stored `photographer` equals
`photo.user.name` whenever the name is non-null. False for a photo whose
user has the empty-string display name (valid for `z.string().nullable()`):
JS `||` treats `""` as falsy, so `addAttribution` stores the username. -/
theorem c5_counterexample :
    photoEmptyName.user.name = some "" ∧
    ((addAttribution emptyDatabase photoEmptyName "/proj/img.jpg"
        nowEx).2).photographer = "mockphotographer" ∧
    ((addAttribution emptyDatabase photoEmptyName "/proj/img.jpg"
        nowEx).2).photographer ≠ "" :=
  ⟨rfl, rfl, by decide⟩

/-- C5 (amended): `addAttribution(photo, path)` followed by
`getAttribution(photo.id)` returns the stored record, whose `photographer`
equals `photo.user.name` whenever the name is non-null and non-empty, and
equals `photo.user.username` when the name is null or the empty string
(JS `||` falls back on both). -/
theorem c5_photographer_fallback_amended (db : AttributionDatabase)
    (photo : Photo) (filePath now : String) :
    getAttribution (addAttribution db photo filePath now).1 photo.id =
      some (addAttribution db photo filePath now).2 ∧
    (∀ n, photo.user.name = some n → n ≠ "" →
      ((addAttribution db photo filePath now).2).photographer = n) ∧
    (photo.user.name = none ∨ photo.user.name = some "" →
      ((addAttribution db photo filePath now).2).photographer =
        photo.user.username) := by
  refine ⟨?_, ?_, ?_⟩
  · simp [getAttribution, addAttribution, objGet_objSet_self]
  · intro n hn hne
    simp [addAttribution, mkAttribution, jsOrString, hn, hne]
  · rintro (hn | hn) <;> simp [addAttribution, mkAttribution, jsOrString, hn]

/-- C5 (witness): the amended theorem at the mock photo, whose user has the
non-empty display name `Mock Photographer`. -/
theorem c5_amended_witness :
    getAttribution
        (addAttribution emptyDatabase photoEx "/proj/img.jpg" nowEx).1
        photoEx.id =
      some (addAttribution emptyDatabase photoEx "/proj/img.jpg" nowEx).2 ∧
    ((addAttribution emptyDatabase photoEx "/proj/img.jpg"
        nowEx).2).photographer = "Mock Photographer" := by
  obtain ⟨h1, h2, -⟩ :=
    c5_photographer_fallback_amended emptyDatabase photoEx "/proj/img.jpg"
      nowEx
  exact ⟨h1, h2 "Mock Photographer" rfl (by decide)⟩

/- ===== Claim C6 ===== -/

/-- Image-fetch script whose first attempt succeeds. -/
def dlOkScript : Nat → DlFetchOutcome := fun _ => .ok

/-- Image-fetch script whose first attempt gets a 500 and whose second
succeeds. -/
def dlRetryScript : Nat → DlFetchOutcome :=
  fun i => if i = 0 then .httpError 500 "Internal Server Error" else .ok

/-- Node `path.isAbsolute` for POSIX paths: the path starts with `/`. -/
def isAbsolutePath (p : String) : Bool := jsStartsWith p "/"

theorem isAbsolutePath_pathJoin (a b : String)
    (h : isAbsolutePath a = true) : isAbsolutePath (pathJoin a b) = true := by
  unfold isAbsolutePath jsStartsWith at h ⊢
  unfold pathJoin
  rw [String.data_append, String.data_append]
  rw [show ("/" : String).data = ['/'] from rfl] at h ⊢
  revert h
  cases had : a.data with
  | nil =>
    intro h
    simp only [List.isPrefixOf] at h
    exact Bool.noConfusion h
  | cons c rest =>
    intro h
    simp only [List.isPrefixOf, List.cons_append, Bool.and_eq_true] at h ⊢
    exact ⟨h.1, trivial⟩

/-- Any run of the `downloadPhoto` retry loop that resolves with a path
resolved with exactly the precomputed `filePath`, produced only fetch,
sleep and write-to-`filePath` effects, and ended on the successful write —
on whichever attempt the fetch-and-write succeeded. -/
theorem downloadAux_ok_shape (url fp : String)
    (outcomes : Nat → DlFetchOutcome) :
    ∀ (fuel : Nat) (le : Option String) (p : String),
      (downloadAux url fp outcomes fuel le).1 = DlResult.ok p →
      p = fp ∧
      (∀ e ∈ (downloadAux url fp outcomes fuel le).2,
        e = DlEvent.fetchUrl url ∨ (∃ ms, e = DlEvent.sleep ms) ∨
          e = DlEvent.writeFile fp) ∧
      ∃ front, (downloadAux url fp outcomes fuel le).2 =
        front ++ [DlEvent.writeFile fp] := by
  intro fuel
  induction fuel with
  | zero =>
    intro le p h
    simp [downloadAux] at h
  | succ fuel ih =>
    intro le p h
    simp only [downloadAux] at h ⊢
    revert h
    cases houtc : outcomes (MAX_RETRIES - fuel) with
    | ok =>
      intro h
      dsimp only at h ⊢
      injection h with hfp
      refine ⟨hfp.symm, ?_, [DlEvent.fetchUrl url], rfl⟩
      intro e he
      simp only [List.mem_cons, List.not_mem_nil, or_false] at he
      rcases he with rfl | rfl
      · exact Or.inl rfl
      · exact Or.inr (Or.inr rfl)
    | httpError st stx =>
      intro h
      dsimp only at h ⊢
      by_cases h1 : 500 ≤ st ∧ 0 < fuel
      · rw [if_pos h1] at h ⊢
        dsimp only at h ⊢
        obtain ⟨hp, hev, front, hfront⟩ := ih _ p h
        refine ⟨hp, ?_, DlEvent.fetchUrl url ::
          DlEvent.sleep (RETRY_DELAYS.getD (MAX_RETRIES - fuel) 0) ::
            front, ?_⟩
        · intro e he
          rcases List.mem_cons.mp he with rfl | he
          · exact Or.inl rfl
          rcases List.mem_cons.mp he with rfl | he
          · exact Or.inr (Or.inl ⟨_, rfl⟩)
          exact hev e he
        · simp [hfront]
      · rw [if_neg h1] at h ⊢
        by_cases h2 : 0 < fuel
        · rw [if_pos h2] at h ⊢
          dsimp only at h ⊢
          obtain ⟨hp, hev, front, hfront⟩ := ih _ p h
          refine ⟨hp, ?_, DlEvent.fetchUrl url ::
            DlEvent.sleep (RETRY_DELAYS.getD (MAX_RETRIES - fuel) 0) ::
              front, ?_⟩
          · intro e he
            rcases List.mem_cons.mp he with rfl | he
            · exact Or.inl rfl
            rcases List.mem_cons.mp he with rfl | he
            · exact Or.inr (Or.inl ⟨_, rfl⟩)
            exact hev e he
          · simp [hfront]
        · rw [if_neg h2] at h
          dsimp only at h
          exact DlResult.noConfusion h
    | writeError m =>
      intro h
      dsimp only at h ⊢
      by_cases h2 : 0 < fuel
      · rw [if_pos h2] at h ⊢
        dsimp only at h ⊢
        obtain ⟨hp, hev, front, hfront⟩ := ih _ p h
        refine ⟨hp, ?_, DlEvent.fetchUrl url ::
          DlEvent.sleep (RETRY_DELAYS.getD (MAX_RETRIES - fuel) 0) ::
            front, ?_⟩
        · intro e he
          rcases List.mem_cons.mp he with rfl | he
          · exact Or.inl rfl
          rcases List.mem_cons.mp he with rfl | he
          · exact Or.inr (Or.inl ⟨_, rfl⟩)
          exact hev e he
        · simp [hfront]
      · rw [if_neg h2] at h
        dsimp only at h
        exact DlResult.noConfusion h
    | netError m =>
      intro h
      dsimp only at h ⊢
      by_cases h2 : 0 < fuel
      · rw [if_pos h2] at h ⊢
        dsimp only at h ⊢
        obtain ⟨hp, hev, front, hfront⟩ := ih _ p h
        refine ⟨hp, ?_, DlEvent.fetchUrl url ::
          DlEvent.sleep (RETRY_DELAYS.getD (MAX_RETRIES - fuel) 0) ::
            front, ?_⟩
        · intro e he
          rcases List.mem_cons.mp he with rfl | he
          · exact Or.inl rfl
          rcases List.mem_cons.mp he with rfl | he
          · exact Or.inr (Or.inl ⟨_, rfl⟩)
          exact hev e he
        · simp [hfront]
      · rw [if_neg h2] at h
        dsimp only at h
        exact DlResult.noConfusion h

/-- C6 (counterexample): the claim fails at the mock photo, the relative
target directory `photos` and no filename override: the written file's
default base name is `unsplash-mock-photo-123` (the source builds
`unsplash-` + photo.id, line 173), not `upstream-mock-photo-123`, and the
returned path `photos/unsplash-mock-photo-123.jpg` (the plain
`path.join(downloadDir, filename)`) is not absolute. -/
theorem c6_counterexample :
    (downloadPhoto photoEx "photos" none none dlOkScript).1 =
      DlResult.ok "photos/unsplash-mock-photo-123.jpg" ∧
    (downloadPhoto photoEx "photos" none none dlOkScript).1 ≠
      DlResult.ok "photos/upstream-mock-photo-123.jpg" ∧
    isAbsolutePath "photos/unsplash-mock-photo-123.jpg" = false :=
  ⟨rfl, by decide, by decide⟩

/-- C6 (amended): every successful `downloadPhoto(photo, targetDir,
filenameOverride?)` run — whichever attempt its image fetch-and-write
succeeded on — first ensures `targetDir` exists, invokes `trackDownload`
before fetching any image bytes, writes the bytes to the file named
`{filenameOverride or the default "unsplash-" ++ photo.id}.jpg` inside
`targetDir`, and returns the path of that file: `targetDir` joined with the
filename, absolute whenever `targetDir` is absolute. -/
theorem c6_download_success_amended (photo : Photo) (dir : String)
    (customFilename : Option String) (outcomes : Nat → DlFetchOutcome)
    (p : String)
    (h : (downloadPhoto photo dir customFilename none outcomes).1 =
      DlResult.ok p) :
    p = pathJoin dir
          (jsOrString customFilename ("unsplash-" ++ photo.id) ++ ".jpg") ∧
    (isAbsolutePath dir = true → isAbsolutePath p = true) ∧
    (∃ tr,
      (downloadPhoto photo dir customFilename none outcomes).2 =
        DlEvent.ensureDir dir :: DlEvent.trackDownload photo.id :: tr ∧
      (∀ e ∈ tr, e = DlEvent.fetchUrl photo.urls.full ∨
        (∃ ms, e = DlEvent.sleep ms) ∨ e = DlEvent.writeFile p) ∧
      ∃ front, tr = front ++ [DlEvent.writeFile p]) := by
  simp only [downloadPhoto, jsOrString] at h ⊢
  obtain ⟨hp, hev, front, hfront⟩ := downloadAux_ok_shape _ _ outcomes _ _ p h
  subst hp
  exact ⟨rfl, isAbsolutePath_pathJoin dir _, _, rfl, hev, front, hfront⟩

/-- C6 (witness): the amended theorem at the mock photo with no override and
a script whose first image fetch gets a 500 and whose retry succeeds — a
successful download on the second attempt. -/
theorem c6_amended_witness :
    ("/tmp/photos/unsplash-mock-photo-123.jpg" : String) =
      pathJoin "/tmp/photos"
        (jsOrString none ("unsplash-" ++ photoEx.id) ++ ".jpg") ∧
    (isAbsolutePath "/tmp/photos" = true →
      isAbsolutePath "/tmp/photos/unsplash-mock-photo-123.jpg" = true) ∧
    (∃ tr,
      (downloadPhoto photoEx "/tmp/photos" none none dlRetryScript).2 =
        DlEvent.ensureDir "/tmp/photos" ::
          DlEvent.trackDownload photoEx.id :: tr ∧
      (∀ e ∈ tr, e = DlEvent.fetchUrl photoEx.urls.full ∨
        (∃ ms, e = DlEvent.sleep ms) ∨
        e = DlEvent.writeFile "/tmp/photos/unsplash-mock-photo-123.jpg") ∧
      ∃ front, tr =
        front ++ [DlEvent.writeFile
          "/tmp/photos/unsplash-mock-photo-123.jpg"]) :=
  c6_download_success_amended photoEx "/tmp/photos" none dlRetryScript
    "/tmp/photos/unsplash-mock-photo-123.jpg" rfl

/- ===== Claim C7 ===== -/

/-- An attribution with an empty-string `projectPath`, as an unvalidated
database file may contain. -/
def attrEmptyPath : Attribution :=
  { id := "edge-1", photographer := "Someone", photographerUrl := none,
    source := "Unsplash", sourceUrl := "https://unsplash.com/photos/edge-1",
    license := "Unsplash License", downloadDate := "2024-01-01T00:00:00.000Z",
    projectPath := some "", projectFile := some "img.jpg" }

def dbEdge : AttributionDatabase :=
  { attributions := [("edge-1", attrEmptyPath)], version := "1.0.0" }

/-- C7 (counterexample): the claim says the result is exactly those
attributions whose stored directory textually starts with the prefix. With
the empty prefix, the stored directory `""` does start with it
(`"".startsWith "" = true`), yet the filter's JS truthiness guard
(`attr.projectPath && ...`) drops the record, returning nothing. -/
theorem c7_counterexample :
    attrEmptyPath ∈ getAllAttributions dbEdge ∧
    attrEmptyPath.projectPath = some "" ∧
    jsStartsWith "" "" = true ∧
    getAttributionsForProject dbEdge "" = [] :=
  ⟨by decide, rfl, by decide, rfl⟩

def attrProjA : Attribution :=
  { attrEmptyPath with id := "p1", projectPath := some "/a/projectA" }

def attrProjB : Attribution :=
  { attrEmptyPath with id := "p2", projectPath := some "/a/projectB" }

def dbAB : AttributionDatabase :=
  { attributions := [("p1", attrProjA), ("p2", attrProjB)],
    version := "1.0.0" }

def attrFoobar : Attribution :=
  { attrEmptyPath with id := "fb", projectPath := some "/foobar" }

def dbFoobar : AttributionDatabase :=
  { attributions := [("fb", attrFoobar)], version := "1.0.0" }

/-- C7 (amended): `getAttributionsForProject` returns exactly those
attributions whose `projectPath` is present, non-empty (the JS truthiness
guard) and textually starts with the prefix — still a plain string-prefix
match that is not path-boundary-aware, so the prefix `/foo` also matches
the directory `/foobar`; and given attributions under `/a/projectA` and
`/a/projectB`, filtering by `/a/projectA` returns exactly the first. -/
theorem c7_project_filter_amended (db : AttributionDatabase) (pre : String) :
    (∀ a, a ∈ getAttributionsForProject db pre ↔
      a ∈ getAllAttributions db ∧
        ∃ p, a.projectPath = some p ∧ p ≠ "" ∧ jsStartsWith p pre = true) ∧
    getAttributionsForProject dbFoobar "/foo" = [attrFoobar] ∧
    getAttributionsForProject dbAB "/a/projectA" = [attrProjA] := by
  refine ⟨?_, by decide, by decide⟩
  intro a
  unfold getAttributionsForProject
  rw [List.mem_filter]
  constructor
  · rintro ⟨hmem, hpred⟩
    refine ⟨hmem, ?_⟩
    cases hp : a.projectPath with
    | none => rw [hp] at hpred; simp at hpred
    | some p =>
      rw [hp] at hpred
      simp only [Bool.and_eq_true, bne_iff_ne, ne_eq] at hpred
      exact ⟨p, rfl, hpred.1, hpred.2⟩
  · rintro ⟨hmem, p, hp, hne, hsw⟩
    refine ⟨hmem, ?_⟩
    rw [hp]
    simp [hne, hsw]

/-- C7 (witness): the amended theorem applied at the two-project database,
showing the `/a/projectA` record passes the filter for its own prefix. -/
theorem c7_amended_witness :
    attrProjA ∈ getAttributionsForProject dbAB "/a/projectA" :=
  ((c7_project_filter_amended dbAB "/a/projectA").1 attrProjA).mpr
    ⟨by decide, "/a/projectA", rfl, by decide, by decide⟩

/- ===== Claim C8 ===== -/

theorem jsonToAttribution_round_trip (a : Attribution) :
    jsonToAttribution (attributionToJson a) = some a := by
  obtain ⟨i, ph, pu, src, su, lic, dd, pp, pf⟩ := a
  cases pu <;> cases pp <;> cases pf <;> rfl

/-- C8 (confirmed): starting from any file whose loaded state is
attributions-object-shaped (in particular any state a prior ledger instance
persisted), `addAttribution(photo, path)` succeeds, `saveDatabase` persists
the updated JSON, and a freshly constructed instance over the same
directory — whose state is the reloaded JSON — has
`getAttribution(photo.id)` return exactly the JSON encoding of the record
the first instance stored, which decodes back to that same record. -/
theorem c8_persistence_round_trip (file : Option FileContent)
    (f g : List (String × Json)) (photo : Photo) (filePath now : String)
    (hload : loadDatabase file = .jobj f)
    (hattr : objGet f "attributions" = some (.jobj g)) :
    ∃ j1 : Json,
      addAttributionRaw (loadDatabase file) photo filePath now =
        .ok (j1, mkAttribution photo filePath now) ∧
      getAttributionRaw (loadDatabase (saveDatabase j1)) photo.id =
        .ok (some (attributionToJson (mkAttribution photo filePath now))) ∧
      jsonToAttribution (attributionToJson (mkAttribution photo filePath now))
        = some (mkAttribution photo filePath now) := by
  refine ⟨.jobj (objSet f "attributions"
      (.jobj (objSet g photo.id
        (attributionToJson (mkAttribution photo filePath now))))), ?_, ?_, ?_⟩
  · rw [hload]
    simp [addAttributionRaw, hattr]
  · show getAttributionRaw
        (.jobj (objSet f "attributions"
          (.jobj (objSet g photo.id
            (attributionToJson (mkAttribution photo filePath now))))))
        photo.id = _
    simp [getAttributionRaw, objGet_objSet_self, attributionToJson, jsTruthy]
  · exact jsonToAttribution_round_trip _

/-- C8 (witness): the round trip at a missing initial file (the constructor
loads the empty database) and the mock photo. -/
theorem c8_witness :
    ∃ j1 : Json,
      addAttributionRaw (loadDatabase none) photoEx "/proj/img.jpg" nowEx =
        .ok (j1, mkAttribution photoEx "/proj/img.jpg" nowEx) ∧
      getAttributionRaw (loadDatabase (saveDatabase j1)) photoEx.id =
        .ok (some (attributionToJson (mkAttribution photoEx "/proj/img.jpg"
              nowEx))) ∧
      jsonToAttribution
          (attributionToJson (mkAttribution photoEx "/proj/img.jpg" nowEx)) =
        some (mkAttribution photoEx "/proj/img.jpg" nowEx) :=
  c8_persistence_round_trip none
    [("attributions", .jobj []), ("version", .jstr "1.0.0")] [] photoEx
    "/proj/img.jpg" nowEx rfl rfl

/- ===== Claim C9 ===== -/

/-- C9 (confirmed): in every ledger state reachable from the empty
attribution database by any sequence of ledger operations, every key of the
attributions mapping equals the `id` field of the record stored under it. -/
theorem c9_keys_match_ids (db : AttributionDatabase) (h : Reachable db) :
    KeysMatchIds db := by
  induction h with
  | init =>
    intro k a hmem
    simp [emptyDatabase] at hmem
  | add db photo filePath now _ ih =>
    intro k a hmem
    simp only [addAttribution] at hmem
    rcases mem_objSet hmem with h1 | h1
    · exact ih k a h1
    · rw [h1.2, h1.1]
      rfl
  | read db _ ih => exact ih

/-- C9 (witness): the invariant at the concrete state reached by one
`addAttribution` from the empty database. -/
theorem c9_witness :
    KeysMatchIds (addAttribution emptyDatabase photoEx "/a/b.jpg" nowEx).1 :=
  c9_keys_match_ids _
    (Reachable.add emptyDatabase photoEx "/a/b.jpg" nowEx Reachable.init)

/- ===== Claim C10 ===== -/

/-- C10 (confirmed): ledger construction performs no shape validation —
every file content that parses as JSON is adopted verbatim as the in-memory
database, including values not of the attributions/version shape such as
JSON `null` or a bare string (neither is replaced by the empty database);
and on the `null` state every subsequent `addAttribution` throws a
TypeError instead of the file having been treated as empty. -/
theorem c10_no_validation_on_load :
    (∀ j : Json, loadDatabase (some (.parsed j)) = j) ∧
    loadDatabase (some (.parsed .jnull)) = .jnull ∧
    loadDatabase (some (.parsed (.jstr "junk"))) = .jstr "junk" ∧
    loadDatabase (some (.parsed .jnull)) ≠ emptyDatabaseJson ∧
    loadDatabase (some (.parsed (.jstr "junk"))) ≠ emptyDatabaseJson ∧
    (∀ (photo : Photo) (filePath now : String),
      addAttributionRaw (loadDatabase (some (.parsed .jnull))) photo filePath
          now =
        .error
          "TypeError: cannot read properties of null (reading attributions)") := by
  refine ⟨fun _ => rfl, rfl, rfl, ?_, ?_, fun _ _ _ => rfl⟩
  · intro h
    exact Json.noConfusion h
  · intro h
    exact Json.noConfusion h

end UnsplashMCP
